import Mathlib

/-!
Verification of the annotation rendering pipeline and utility modules of the
bigpicture-pims image server.

The development shallowly embeds the Python sources:
* `pims/processing/color.py` (32-bit color packing and unpacking),
* `pims/api/utils/mimetype.py` (mimetype negotiation tables),
* `pims/processing/metadata.py` (BP metadata flattening and filtering),
* `pims/api/annotation.py` (the mask / crop / drawing pipelines).

Collaborators of `pims/api/annotation.py` that live in modules outside the
embedded sources (`pims/api/utils/annotation_parameter.py`,
`pims/api/utils/image_parameter.py`, `pims/api/window.py`,
`pims/processing/image_response.py`, `pims/api/utils/header.py`) are modelled
from the specification; each such definition carries a doc comment starting
with `Modelled from the spec:`.
-/

/-! ### `pims/processing/color.py` -/

/-- The pydantic `RGBA` quadruplet: three color channels stored as floats in
`[0, 1]` (channel value divided by 255, as done by pydantic `ints_to_rgba`)
plus an alpha value in `[0, 1]`.  Floats are embedded as rationals. -/
structure RGBA where
  r : ℚ
  g : ℚ
  b : ℚ
  alpha : ℚ
deriving DecidableEq, Repr

/-- pydantic's `ints_to_rgba` helper: 8-bit integer channels `r`, `g`, `b`
together with a float alpha are turned into an `RGBA` quadruplet whose
channels are divided by 255. -/
def ints_to_rgba (r g b : ℕ) (alpha : ℚ) : RGBA :=
  RGBA.mk ((r : ℚ) / 255) ((g : ℚ) / 255) ((b : ℚ) / 255) alpha

/-- `pims.processing.color.parse_int`: convert a 32-bit int color to an 8-bit
RGBA quadruplet.  `r = value >> 24 & 255`, `g = value >> 16 & 255`,
`b = value >> 8 & 255`, `a = (value >> 0 & 255) / 255`, then
`ints_to_rgba(r, g, b, a)`. -/
def parse_int (value : ℕ) : RGBA :=
  ints_to_rgba (value >>> 24 &&& 255) (value >>> 16 &&& 255) (value >>> 8 &&& 255)
    (((value >>> 0 &&& 255 : ℕ) : ℚ) / 255)

/-- `pims.processing.color.np_int2rgb`: convert a 32-bit int color to an 8-bit
RGB triplet (stacking `r = c >> 24 & 255`, `g = c >> 16 & 255`,
`b = c >> 8 & 255`, and additionally `a = (c >> 0 & 255) / 255` when `alpha`
is set).  The scalar case of the numpy stacking is embedded as a list. -/
def np_int2rgb (color_int : ℕ) (alpha : Bool) : List ℚ :=
  if alpha then
    [((color_int >>> 24 &&& 255 : ℕ) : ℚ), ((color_int >>> 16 &&& 255 : ℕ) : ℚ),
      ((color_int >>> 8 &&& 255 : ℕ) : ℚ), ((color_int >>> 0 &&& 255 : ℕ) : ℚ) / 255]
  else
    [((color_int >>> 24 &&& 255 : ℕ) : ℚ), ((color_int >>> 16 &&& 255 : ℕ) : ℚ),
      ((color_int >>> 8 &&& 255 : ℕ) : ℚ)]

/-- Packing four channel bytes into a 32-bit integer, as written in the claim
and in `Color.as_int`: `r << 24 | g << 16 | b << 8 | a`. -/
def packRGBA (r g b a : ℕ) : ℕ :=
  r <<< 24 ||| g <<< 16 ||| b <<< 8 ||| a

/-- For in-range channel bytes the bit-or packing is plain positional
arithmetic on base-256 digits. -/
theorem packRGBA_eq (r g b a : ℕ) (hr : r < 256) (hg : g < 256) (hb : b < 256)
    (ha : a < 256) :
    packRGBA r g b a = ((r * 256 + g) * 256 + b) * 256 + a := by
  unfold packRGBA
  have e24 : r <<< 24 = 2 ^ 24 * r := by rw [Nat.shiftLeft_eq]; ring
  have e16 : g <<< 16 = g * 2 ^ 16 := Nat.shiftLeft_eq g 16
  have e8 : b <<< 8 = b * 2 ^ 8 := Nat.shiftLeft_eq b 8
  have h1 : r <<< 24 ||| g <<< 16 = 2 ^ 16 * (2 ^ 8 * r + g) := by
    rw [e24, e16, ← Nat.mul_add_lt_is_or (by norm_num; omega) r]
    ring
  have h2 : r <<< 24 ||| g <<< 16 ||| b <<< 8 = 2 ^ 8 * (2 ^ 8 * (2 ^ 8 * r + g) + b) := by
    rw [h1, e8, ← Nat.mul_add_lt_is_or (by norm_num; omega) (2 ^ 8 * r + g)]
    ring
  rw [h2, ← Nat.mul_add_lt_is_or (show a < 2 ^ 8 by norm_num; omega)
    (2 ^ 8 * (2 ^ 8 * r + g) + b)]
  ring

/-! ### `pims/api/utils/mimetype.py` -/

def PNG_MIMETYPES : List (String × String) := [("image/png", "PNG")]

def WEBP_MIMETYPES : List (String × String) := [("image/webp", "WEBP")]

def JPEG_MIMETYPES : List (String × String) := [("image/jpg", "JPEG"), ("image/jpeg", "JPEG")]

/-- `SUPPORTED_MIMETYPES`: an empty dict updated with the PNG, JPEG and WEBP
tables in that order.  The key sets are disjoint, so the dict is the
concatenation of the three association lists. -/
def SUPPORTED_MIMETYPES : List (String × String) :=
  PNG_MIMETYPES ++ JPEG_MIMETYPES ++ WEBP_MIMETYPES

/-- Lookup in an association list embedding a Python dict. -/
def dictGet (d : List (String × String)) (k : String) : Option String :=
  (d.find? (fun kv => kv.1 == k)).map (fun kv => kv.2)

/-- Python `str.lower` for the ASCII format names used here (embedded by hand
so that it evaluates inside the kernel). -/
def pyLower (s : String) : String :=
  String.mk (s.data.map (fun c => if c.isUpper then Char.ofNat (c.toNat + 32) else c))

/-- The error raised by `mimetype_to_mpl_slug` for unsupported mimetypes
(`UnsupportedMediaTypeProblem`, the unsupported-mimetype error of the spec). -/
inductive MimetypeError where
  | unsupportedMediaTypeProblem
deriving DecidableEq, Repr

/-- `pims.api.utils.mimetype.mimetype_to_mpl_slug`: raises for mimetypes
outside `SUPPORTED_MIMETYPES`, otherwise returns the lowercased format of the
table. -/
def mimetype_to_mpl_slug (mimetype : String) : Except MimetypeError String :=
  match dictGet SUPPORTED_MIMETYPES mimetype with
  | Option.none => Except.error MimetypeError.unsupportedMediaTypeProblem
  | Option.some fmt => Except.ok (pyLower fmt)

/-! ### `pims/processing/metadata.py` -/

/-- A Python value as it can appear among the flattened metadata values of
`BPMetadataParser.parsed`: `None`, a boolean, an integer, a float, a string,
or a container.  A container value only ever matters through its emptiness
here, so lists and dicts are abstracted by their size. -/
inductive PyVal where
  | pynone
  | pybool (b : Bool)
  | pyint (n : ℤ)
  | pyfloat (q : ℚ)
  | pystr (s : String)
  | pylist (size : ℕ)
  | pydict (size : ℕ)
deriving DecidableEq, Repr

/-- Python truthiness of a flattened metadata value: `None`, `False`, `0`,
the empty string, the empty list and the empty dict are falsy, everything
else is truthy. -/
def truthy : PyVal → Bool
  | PyVal.pynone => false
  | PyVal.pybool b => b
  | PyVal.pyint n => n ≠ 0
  | PyVal.pyfloat q => q ≠ 0
  | PyVal.pystr s => !s.isEmpty
  | PyVal.pylist size => size ≠ 0
  | PyVal.pydict size => size ≠ 0

/-- The flattened metadata dictionary `self.parsed`, embedded as an
association list. -/
abbrev PyDict := List (String × PyVal)

/-- Python `base.update(upd)`: keys of `upd` override those of `base`. -/
def dictUpdate (base upd : PyDict) : PyDict :=
  List.filter (fun kv => (List.find? (fun kv2 => kv2.1 == kv.1) upd).isNone) base ++ upd

/-- Naive substring test embedding Python's `needle in hay`. -/
def strContains (hay needle : String) : Bool :=
  (List.range (hay.length + 1)).any
    (fun i => (hay.toList.drop i).take needle.length == needle.toList)

/-- `needle in hay` where the needle is an optional filter value; `None`
filters never select anything (the code only consults them once set). -/
def optContains (hay : String) (needle : Option String) : Bool :=
  match needle with
  | Option.none => false
  | Option.some s => strContains hay s

/-- The `self.filters` state of `BPMetadataParser`: image / slide /
observation / biological-being identifiers, each possibly unset. -/
structure BPFilters where
  image : Option String
  slide : Option String
  obs : Option String
  being : Option String

/-- `BPMetadataParser._filter`: returns `parsed` unchanged when no image
filter is set, otherwise assembles a base dict from `STUDY` entries updated
with filtered `DATASET` and `BIOLOGICAL_BEING` entries, all drawn from
`parsed`. -/
def bpFilter (filters : BPFilters) (parsed : PyDict) : PyDict :=
  match filters.image with
  | Option.none => parsed
  | Option.some img =>
    let dataset := List.filter (fun kv => kv.1.startsWith "DATASET") parsed
    let base0 := List.filter (fun kv => kv.1.startsWith "STUDY") parsed
    let beings := List.filter (fun kv => kv.1.startsWith "BIOLOGICAL_BEING") parsed
    let base1 := dictUpdate base0 (List.filter (fun kv => strContains kv.1 img) dataset)
    let base2 := dictUpdate base1
      (List.filter (fun kv => optContains kv.1 filters.slide) dataset)
    let observation := List.filter (fun kv => optContains kv.1 filters.obs) dataset
    let base3 := dictUpdate base2
      (List.filter (fun kv => !strContains kv.1 "slides") observation)
    let being := List.filter (fun kv => optContains kv.1 filters.being) beings
    let base4 := dictUpdate base3
      (List.filter (fun kv => !strContains kv.1 "slides") being)
    dictUpdate base4 (List.filter (fun kv => optContains kv.1 filters.slide) being)

/-- `BPMetadataParser._remove_empty_variables`: keep only truthy values. -/
def removeEmptyVariables (parsed : PyDict) : PyDict :=
  List.filter (fun kv => truthy kv.2) parsed

/-- The tail of `BPMetadataParser.parse`: after the traversal loops have
accumulated the flat dict `parsed` (the traversal itself walks the external
`bigpicture_metadata_interface` model), empty variables are removed and the
filtered result is returned. -/
def bpParse (parsed : PyDict) (filters : BPFilters) : PyDict :=
  bpFilter filters (removeEmptyVariables parsed)

theorem mem_dictUpdate {kv : String × PyVal} {base upd : PyDict}
    (h : kv ∈ dictUpdate base upd) : kv ∈ base ∨ kv ∈ upd := by
  unfold dictUpdate at h
  rcases List.mem_append.mp h with h' | h'
  · exact Or.inl (List.mem_of_mem_filter h')
  · exact Or.inr h'

theorem mem_bpFilter {kv : String × PyVal} {filters : BPFilters} {parsed : PyDict}
    (h : kv ∈ bpFilter filters parsed) : kv ∈ parsed := by
  unfold bpFilter at h
  cases hi : filters.image with
  | none => rw [hi] at h; exact h
  | some img =>
    rw [hi] at h
    simp only at h
    repeat' first
    | exact h
    | (rcases mem_dictUpdate h with h | h)
    | (replace h := List.mem_of_mem_filter h)

/-! ### Claim theorems for the utility modules -/

/-- C9: Every value in the dictionary returned by `BPMetadataParser.parse` is
truthy: for every flattened metadata dict and every filter state, entries
whose value is `None`, `False`, `0`, an empty string, an empty list or an
empty dict are removed (by `_remove_empty_variables`) before the filtered
result is returned, and `_filter` only selects entries of the cleaned dict. -/
theorem C9_parse_values_truthy (parsed : PyDict) (filters : BPFilters)
    (kv : String × PyVal) (h : kv ∈ bpParse parsed filters) : truthy kv.2 = true := by
  unfold bpParse at h
  have h' := mem_bpFilter h
  unfold removeEmptyVariables at h'
  exact (List.mem_filter.mp h').2

/-- Witness for C9 at a concrete flattened dict with one truthy and one falsy
entry and no image filter. -/
theorem C9_parse_values_truthy_witness :
    (("STUDY_A.title", PyVal.pystr "t") ∈
      bpParse [("STUDY_A.title", PyVal.pystr "t"), ("STUDY_A.note", PyVal.pystr "")]
        (BPFilters.mk Option.none Option.none Option.none Option.none)) ∧
    truthy (PyVal.pystr "t") = true :=
  ⟨by decide,
    C9_parse_values_truthy
      [("STUDY_A.title", PyVal.pystr "t"), ("STUDY_A.note", PyVal.pystr "")]
      (BPFilters.mk Option.none Option.none Option.none Option.none)
      ("STUDY_A.title", PyVal.pystr "t") (by decide)⟩

/-- C10: 32-bit color packing and unpacking round-trip: for channel bytes
`r, g, b, a < 256`, `parse_int (r <<< 24 ||| g <<< 16 ||| b <<< 8 ||| a)`
yields the RGBA quadruplet with 8-bit channels `(r, g, b)` and alpha
`a / 255`, and `np_int2rgb` on the same packed integer recovers exactly
`(r, g, b)`. -/
theorem C10_color_roundtrip (r g b a : ℕ) (hr : r < 256) (hg : g < 256)
    (hb : b < 256) (ha : a < 256) :
    parse_int (packRGBA r g b a) = ints_to_rgba r g b ((a : ℚ) / 255) ∧
    np_int2rgb (packRGBA r g b a) false = [(r : ℚ), (g : ℚ), (b : ℚ)] := by
  have hpack := packRGBA_eq r g b a hr hg hb ha
  have h24 : (((r * 256 + g) * 256 + b) * 256 + a) >>> 24 &&& 255 = r := by
    rw [Nat.shiftRight_eq_div_pow, Nat.and_pow_two_sub_one_eq_mod _ 8]
    omega
  have h16 : (((r * 256 + g) * 256 + b) * 256 + a) >>> 16 &&& 255 = g := by
    rw [Nat.shiftRight_eq_div_pow, Nat.and_pow_two_sub_one_eq_mod _ 8]
    omega
  have h8 : (((r * 256 + g) * 256 + b) * 256 + a) >>> 8 &&& 255 = b := by
    rw [Nat.shiftRight_eq_div_pow, Nat.and_pow_two_sub_one_eq_mod _ 8]
    omega
  have h0 : (((r * 256 + g) * 256 + b) * 256 + a) >>> 0 &&& 255 = a := by
    rw [Nat.shiftRight_eq_div_pow, Nat.and_pow_two_sub_one_eq_mod _ 8]
    omega
  constructor
  · rw [hpack]
    unfold parse_int
    rw [h24, h16, h8, h0]
  · rw [hpack]
    unfold np_int2rgb
    simp only [Bool.false_eq_true, if_false, h24, h16, h8]

/-- Witness for C10 at channel bytes `(7, 20, 54, 200)`. -/
theorem C10_color_roundtrip_witness :
    (7 : ℕ) < 256 ∧ (20 : ℕ) < 256 ∧ (54 : ℕ) < 256 ∧ (200 : ℕ) < 256 ∧
    (parse_int (packRGBA 7 20 54 200) = ints_to_rgba 7 20 54 (((200 : ℕ) : ℚ) / 255) ∧
      np_int2rgb (packRGBA 7 20 54 200) false =
        [((7 : ℕ) : ℚ), ((20 : ℕ) : ℚ), ((54 : ℕ) : ℚ)]) :=
  ⟨by decide, by decide, by decide, by decide,
    C10_color_roundtrip 7 20 54 200 (by decide) (by decide) (by decide) (by decide)⟩

/-- C7: `mimetype_to_mpl_slug m` raises the unsupported-mimetype error iff `m`
is not one of `image/png`, `image/jpg`, `image/jpeg`, `image/webp`, and maps
every supported mimetype to its lowercase format slug. -/
theorem C7_mimetype_slug (m : String) :
    (mimetype_to_mpl_slug m = Except.error MimetypeError.unsupportedMediaTypeProblem ↔
      m ∉ (["image/png", "image/jpg", "image/jpeg", "image/webp"] : List String)) ∧
    mimetype_to_mpl_slug "image/png" = Except.ok "png" ∧
    mimetype_to_mpl_slug "image/jpg" = Except.ok "jpeg" ∧
    mimetype_to_mpl_slug "image/jpeg" = Except.ok "jpeg" ∧
    mimetype_to_mpl_slug "image/webp" = Except.ok "webp" := by
  refine ⟨⟨?_, ?_⟩, by rfl, by rfl, by rfl, by rfl⟩
  · intro h hm
    fin_cases hm <;> simp [mimetype_to_mpl_slug, dictGet, SUPPORTED_MIMETYPES,
      PNG_MIMETYPES, JPEG_MIMETYPES, WEBP_MIMETYPES, List.find?] at h
  · intro hm
    simp only [List.mem_cons, List.not_mem_nil, or_false, not_or] at hm
    obtain ⟨h1, h2, h3, h4⟩ := hm
    have e1 : ("image/png" == m) = false := beq_eq_false_iff_ne.mpr (Ne.symm h1)
    have e2 : ("image/jpg" == m) = false := beq_eq_false_iff_ne.mpr (Ne.symm h2)
    have e3 : ("image/jpeg" == m) = false := beq_eq_false_iff_ne.mpr (Ne.symm h3)
    have e4 : ("image/webp" == m) = false := beq_eq_false_iff_ne.mpr (Ne.symm h4)
    simp [mimetype_to_mpl_slug, dictGet, SUPPORTED_MIMETYPES, PNG_MIMETYPES,
      JPEG_MIMETYPES, WEBP_MIMETYPES, List.find?, e1, e2, e3, e4]

/-! ### `pims/api/annotation.py` and its modelled collaborators -/

/-- 8-bit RGB color used for annotation styles (`pims.processing.color.Color`
restricted to its RGB channels; the alpha channel plays no role in the
embedded pipelines). -/
structure Color where
  red : ℕ
  green : ℕ
  blue : ℕ
deriving DecidableEq, Repr

/-- `pims.processing.color.WHITE = Color((255, 255, 255))`. -/
def WHITE : Color := Color.mk 255 255 255

/-- Annotation geometry: a tagged union over coordinate sequences (§3
Annotation).  Coordinates are embedded as rationals. -/
inductive Geometry where
  | point (x y : ℚ)
  | linestring (coords : List (ℚ × ℚ))
  | polygon (shell : List (ℚ × ℚ))
deriving DecidableEq, Repr

/-- A raw annotation payload item: geometry plus the three optional style
fields (§6 request shape). -/
structure RawAnnotation where
  geometry : Geometry
  fill_color : Option Color
  stroke_color : Option Color
  stroke_width : Option ℚ
deriving DecidableEq, Repr

/-- An annotation after parsing (§3 Annotation, immutable once parsed). -/
structure ParsedAnnotation where
  geometry : Geometry
  fill_color : Option Color
  stroke_color : Option Color
  stroke_width : Option ℚ
deriving DecidableEq, Repr

/-- The `default` dict passed to `parse_annotations` by the call sites in
`pims/api/annotation.py`. -/
structure AnnotDefaults where
  fill_color : Option Color
  stroke_color : Option Color
  stroke_width : Option ℚ
deriving DecidableEq, Repr

/-- The annotation coordinate origin carried by the request headers. -/
inductive AnnotOrigin where
  | leftTop
  | leftBottom
deriving DecidableEq, Repr

/-- Map a function over every coordinate of a geometry. -/
def geomMapCoords (f : ℚ × ℚ → ℚ × ℚ) : Geometry → Geometry
  | Geometry.point x y => Geometry.point (f (x, y)).1 (f (x, y)).2
  | Geometry.linestring coords => Geometry.linestring (coords.map f)
  | Geometry.polygon shell => Geometry.polygon (shell.map f)

/-- Modelled from the spec: §4.1 origin normalization — with a bottom-left
origin every y-coordinate is mapped to `image_height - y` before storage. -/
def normalizeOrigin (origin : AnnotOrigin) (im_height : ℚ) (g : Geometry) : Geometry :=
  match origin with
  | AnnotOrigin.leftTop => g
  | AnnotOrigin.leftBottom => geomMapCoords (fun p => (p.1, im_height - p.2)) g

/-- Modelled from the spec: §4.1 point-envelope expansion — a point may be
expanded into a small square envelope of configurable side length when
`point_envelope_length` is given. -/
def applyPointEnvelope (point_envelope_length : Option ℚ) (g : Geometry) : Geometry :=
  match point_envelope_length, g with
  | Option.some len, Geometry.point x y =>
    Geometry.polygon [(x - len / 2, y - len / 2), (x + len / 2, y - len / 2),
      (x + len / 2, y + len / 2), (x - len / 2, y + len / 2)]
  | _, _ => g

/-- Without a `point_envelope_length`, the parser leaves every geometry
unexpanded. -/
theorem applyPointEnvelope_none (g : Geometry) :
    applyPointEnvelope Option.none g = g := by
  cases g <;> rfl

/-- Modelled from the spec: §4.1 style-field handling — fields named in
`ignore_fields` are dropped even if present in the payload; fields absent
from the payload and not ignored take values from `default_values`. -/
def styleField {α : Type} (ignored : Bool) (payload dflt : Option α) : Option α :=
  if ignored then Option.none
  else
    match payload with
    | Option.some v => Option.some v
    | Option.none => dflt

/-- Modelled from the spec: §4.1 Annotation Parser `parse_annotations`
(`pims/api/utils/annotation_parameter.py`, not in src/).  Binder order
follows the call sites in `pims/api/annotation.py`: raw items,
`ignore_fields`, `default`, `point_envelope_length`, `origin`, `im_height`. -/
def parse_annotations (raws : List RawAnnotation) (ignore_fields : List String)
    (dflt : AnnotDefaults) (point_envelope_length : Option ℚ)
    (origin : AnnotOrigin) (im_height : ℚ) : List ParsedAnnotation :=
  raws.map (fun raw =>
    ParsedAnnotation.mk
      (applyPointEnvelope point_envelope_length
        (normalizeOrigin origin im_height raw.geometry))
      (styleField (ignore_fields.contains "fill_color") raw.fill_color dflt.fill_color)
      (styleField (ignore_fields.contains "stroke_color") raw.stroke_color dflt.stroke_color)
      (styleField (ignore_fields.contains "stroke_width") raw.stroke_width dflt.stroke_width))

/-- A rectangular region in source-image pixel space: top-left corner plus
width and height (§3 Region). -/
structure Rect where
  x : ℚ
  y : ℚ
  width : ℚ
  height : ℚ
deriving DecidableEq, Repr

/-- The coordinate list of a geometry. -/
def geomCoords : Geometry → List (ℚ × ℚ)
  | Geometry.point x y => [(x, y)]
  | Geometry.linestring coords => coords
  | Geometry.polygon shell => shell

/-- Minimal axis-aligned envelope of a coordinate list (`none` when empty). -/
def envelopeOf : List (ℚ × ℚ) → Option Rect
  | [] => Option.none
  | c :: rest =>
    let minx := rest.foldl (fun m p => min m p.1) c.1
    let miny := rest.foldl (fun m p => min m p.2) c.2
    let maxx := rest.foldl (fun m p => max m p.1) c.1
    let maxy := rest.foldl (fun m p => max m p.2) c.2
    Option.some (Rect.mk minx miny (maxx - minx) (maxy - miny))

/-- Modelled from the spec: §3 AnnotationCollection — the derived `region` of
a collection is the bounding rectangle of all its geometries. -/
def collectionEnvelope (annots : List ParsedAnnotation) : Option Rect :=
  envelopeOf (annots.flatMap (fun a => geomCoords a.geometry))

/-- `annots.region` as consumed by `_show_mask` (defaulting the impossible
empty case: the pipelines fail upstream on empty collections). -/
def collectionRegion (annots : List ParsedAnnotation) : Rect :=
  (collectionEnvelope annots).getD (Rect.mk 0 0 0 0)

/-- Pyramid bounds consulted by zoom/level validation (§4.3). -/
structure Pyramid where
  max_zoom : ℕ
  max_level : ℕ
deriving DecidableEq, Repr

/-- The spatial representation of the requested image
(`path.get_spatial()`). -/
structure SpatialImage where
  width : ℕ
  height : ℕ
  pyramid : Pyramid
deriving DecidableEq, Repr

/-- The error taxonomy of the pipeline (§7). -/
inductive PimsError where
  | invalidGeometryError
  | invalidZoomError
  | invalidLevelError
  | unsupportedMimetypeError
deriving DecidableEq, Repr

/-- Modelled from the spec: §4.2 context-factor expansion — width and height
are multiplied by the factor, expanding symmetrically around the center. -/
def scaleRectAboutCenter (factor : ℚ) (r : Rect) : Rect :=
  Rect.mk (r.x + r.width / 2 - r.width * factor / 2)
    (r.y + r.height / 2 - r.height * factor / 2)
    (r.width * factor) (r.height * factor)

/-- Modelled from the spec: §4.2 `try_square` — the shorter of width/height
is extended (never shrunk) to equal the longer, re-centered. -/
def trySquareRect (r : Rect) : Rect :=
  if r.width < r.height then
    Rect.mk (r.x - (r.height - r.width) / 2) r.y r.height r.height
  else if r.height < r.width then
    Rect.mk r.x (r.y - (r.width - r.height) / 2) r.width r.width
  else r

/-- Modelled from the spec: §4.2 clipping to the source image extent. -/
def clipRect (img : SpatialImage) (r : Rect) : Rect :=
  let x1 := max r.x 0
  let y1 := max r.y 0
  let x2 := min (r.x + r.width) (img.width : ℚ)
  let y2 := min (r.y + r.height) (img.height : ℚ)
  Rect.mk x1 y1 (max (x2 - x1) 0) (max (y2 - y1) 0)

/-- Modelled from the spec: §4.2 Region Resolver `get_annotation_region`
(`pims/api/utils/annotation_parameter.py`, not in src/): bounding envelope,
context-factor expansion about the center (`context_factor` defaults to 1
when absent), optional square adjustment, clipping to the image; fails with
`InvalidGeometryError` on an empty collection (§8). -/
def get_annotation_region (img : SpatialImage) (annots : List ParsedAnnotation)
    (context_factor : Option ℚ) (try_square : Bool) : Except PimsError Rect :=
  match collectionEnvelope annots with
  | Option.none => Except.error PimsError.invalidGeometryError
  | Option.some env =>
    let expanded := scaleRectAboutCenter (context_factor.getD 1) env
    Except.ok (clipRect img (if try_square then trySquareRect expanded else expanded))

/-- Rounding of a resolved axis to the nearest integer, at least one output
pixel (§4.3). -/
def roundPos (q : ℚ) : ℕ :=
  max 1 (Rat.floor (q + 1 / 2)).toNat

/-- Modelled from the spec: §4.3 Scale Resolver `get_window_output_dimensions`
(`pims/api/utils/image_parameter.py`, not in src/): explicit `width` /
`height` / `length` take precedence over `zoom`, `zoom` over `level`; the
missing axis keeps the region's aspect ratio; with no scale field the natural
region size is used; each axis is rounded to the nearest integer and is at
least 1.  Binder order follows the call sites. -/
def get_window_output_dimensions (img : SpatialImage) (region : Rect)
    (height width length zoom level : Option ℕ) : ℕ × ℕ :=
  match width, height, length with
  | Option.some w, _, _ =>
    (max 1 w, roundPos ((w : ℚ) * region.height / region.width))
  | Option.none, Option.some h, _ =>
    (roundPos ((h : ℚ) * region.width / region.height), max 1 h)
  | Option.none, Option.none, Option.some l =>
    if region.height ≤ region.width then
      (max 1 l, roundPos ((l : ℚ) * region.height / region.width))
    else
      (roundPos ((l : ℚ) * region.width / region.height), max 1 l)
  | Option.none, Option.none, Option.none =>
    match zoom with
    | Option.some z =>
      (roundPos (region.width * ((2 : ℚ) ^ z) / ((2 : ℚ) ^ img.pyramid.max_zoom)),
        roundPos (region.height * ((2 : ℚ) ^ z) / ((2 : ℚ) ^ img.pyramid.max_zoom)))
    | Option.none =>
      match level with
      | Option.some lv =>
        (roundPos (region.width / ((2 : ℚ) ^ lv)), roundPos (region.height / ((2 : ℚ) ^ lv)))
      | Option.none => (roundPos region.width, roundPos region.height)

/-- Modelled from the spec: §4.3 zoom validation `check_zoom_validity` — a
given zoom must lie within the pyramid's zoom range. -/
def check_zoom_validity (pyramid : Pyramid) (zoom : Option ℕ) : Except PimsError Unit :=
  match zoom with
  | Option.none => Except.ok ()
  | Option.some z =>
    if z ≤ pyramid.max_zoom then Except.ok () else Except.error PimsError.invalidZoomError

/-- Modelled from the spec: §4.3 level validation `check_level_validity`. -/
def check_level_validity (pyramid : Pyramid) (level : Option ℕ) : Except PimsError Unit :=
  match level with
  | Option.none => Except.ok ()
  | Option.some l =>
    if l ≤ pyramid.max_level then Except.ok () else Except.error PimsError.invalidLevelError

/-- Modelled from the spec: §4.4 — the request's safe mode either permits the
safeguard to clamp or disables clamping. -/
inductive SafeMode where
  | safeResize
  | noClamping
deriving DecidableEq, Repr

/-- Modelled from the spec: §4.4 Output Safeguard `safeguard_output_dimensions`
(`pims/api/utils/image_parameter.py`, not in src/): when the pixel count
exceeds the configured limit and safe mode permits clamping, both dimensions
are downscaled proportionally (floor of the proportional solution, at least
one pixel); otherwise the original request is honored.  Never fails. -/
def safeguard_output_dimensions (safe_mode : SafeMode) (limit w h : ℕ) : ℕ × ℕ :=
  if safe_mode = SafeMode.noClamping ∨ w * h ≤ limit then (w, h)
  else
    (max 1 (Nat.sqrt (w * w * limit / (w * h))), max 1 (Nat.sqrt (h * h * limit / (w * h))))

/-- The request headers consumed by the annotation routes
(`ImageAnnotationRequestHeaders`, `pims/api/utils/header.py`, not in src/):
annotation origin, safe mode and the Accept header. -/
structure ImageAnnotationRequestHeaders where
  annot_origin : AnnotOrigin
  safe_mode : SafeMode
  accept : String
deriving DecidableEq, Repr

/-- The configuration consulted by the pipelines (`pims.config.Settings`):
the output size limit of the safeguard. -/
structure Settings where
  output_size_limit : ℕ
deriving DecidableEq, Repr

/-- The optional path extension of the route. -/
inductive OutputExtension where
  | noExtension
  | png
  | jpg
  | webp
deriving DecidableEq, Repr

/-- Modelled from the spec: the mimetypes usable for visualisation responses
(`VISUALISATION_MIMETYPES` is imported from `pims/api/utils/mimetype.py` by
`pims/api/annotation.py`, but only `SUPPORTED_MIMETYPES` is in src/; the
supported set is the same). -/
def VISUALISATION_MIMETYPES : List (String × String) := SUPPORTED_MIMETYPES

/-- Modelled from the spec: output format negotiation `get_output_format`
(`pims/api/utils/mimetype.py` of src/ only defines the tables): a path
extension forces its format, otherwise the Accept header is matched against
the supported mimetypes; failing both is the unsupported-mimetype error.
Returns the `(format, mimetype)` pair. -/
def get_output_format (extension : OutputExtension) (accept : String)
    (supported : List (String × String)) : Except PimsError (String × String) :=
  match extension with
  | OutputExtension.png => Except.ok ("PNG", "image/png")
  | OutputExtension.jpg => Except.ok ("JPEG", "image/jpeg")
  | OutputExtension.webp => Except.ok ("WEBP", "image/webp")
  | OutputExtension.noExtension =>
    match supported.find? (fun kv => strContains accept kv.1) with
    | Option.some kv => Except.ok (kv.2, kv.1)
    | Option.none => Except.error PimsError.unsupportedMimetypeError

/-- Modelled from the spec: §2/§8 `add_image_size_limit_header`
(`pims/api/utils/header.py`, not in src/) — response headers are built from
both the requested and the effective (safeguarded) output size; a header
signalling the clamp is added when they differ. -/
def add_image_size_limit_header (headers : List (String × String))
    (request_width request_height safe_width safe_height : ℕ) : List (String × String) :=
  if request_width ≠ safe_width ∨ request_height ≠ safe_height then
    headers ++ [("X-Image-Size-Limit", toString safe_width ++ "x" ++ toString safe_height)]
  else headers

/-- 2×3 affine transform coefficients (§3 AffineTransform). -/
structure AffineMatrix where
  sx : ℚ
  shearx : ℚ
  tx : ℚ
  sheary : ℚ
  sy : ℚ
  ty : ℚ
deriving DecidableEq, Repr

/-- Modelled from the spec: §4.5 Affine Transform Builder
`annotation_crop_affine_matrix` (`pims/processing/annotations.py`, not in
src/): scale factors `out / region` (1 on a degenerate axis), translation
mapping the region's top-left corner to the raster origin.  The collection
envelope argument of the call site is carried but the transform is a function
of the region and the output size (§4.5). -/
def annotation_crop_affine_matrix (annots_region region : Rect)
    (out_width out_height : ℕ) : AffineMatrix :=
  let sx := if region.width = 0 then 1 else (out_width : ℚ) / region.width
  let sy := if region.height = 0 then 1 else (out_height : ℚ) / region.height
  AffineMatrix.mk sx 0 (-(region.x) * sx) 0 sy (-(region.y) * sy)

/-- The constructor arguments of `MaskResponse`
(`pims/processing/image_response.py`, not in src/): the inputs of the Mask
renderer (§4.7) — image, parsed annotations, affine transform, output size,
bit depth and output format. -/
structure MaskResponse where
  in_image : SpatialImage
  annots : List ParsedAnnotation
  affine : AffineMatrix
  out_width : ℕ
  out_height : ℕ
  bits : ℕ
  out_format : String
deriving DecidableEq, Repr

/-- `MaskResponse(...).http_response(mimetype, extra_headers=...)`: the HTTP
response produced by the mask route. -/
structure MaskHttpResponse where
  mask : MaskResponse
  mimetype : String
  extra_headers : List (String × String)
deriving DecidableEq, Repr

/-- Modelled from the spec: §4.7 Mask rendering — background black, each
annotation geometry filled (not stroked) with its fill color: the colors that
can appear in the rendered mask raster. -/
def maskPalette (resp : MaskResponse) : List Color :=
  Color.mk 0 0 0 :: resp.annots.filterMap (fun a => a.fill_color)

/-- The annotation-parsing call of `_show_mask` (`pims/api/annotation.py`
lines 75-80): stroke fields ignored, default white fill, no point-envelope
expansion. -/
def maskAnnots (annotations : List RawAnnotation)
    (headers : ImageAnnotationRequestHeaders) (in_image : SpatialImage) :
    List ParsedAnnotation :=
  parse_annotations annotations ["stroke_width", "stroke_color"]
    (AnnotDefaults.mk (Option.some WHITE) Option.none Option.none)
    Option.none headers.annot_origin (in_image.height : ℚ)

/-- The region-resolution call of `_show_mask` (line 82): no square
adjustment. -/
def maskRegion (annotations : List RawAnnotation) (context_factor : Option ℚ)
    (headers : ImageAnnotationRequestHeaders) (in_image : SpatialImage) :
    Except PimsError Rect :=
  get_annotation_region in_image (maskAnnots annotations headers in_image)
    context_factor false

/-- `pims.api.annotation._show_mask`: parse annotations (stroke fields
ignored, default white fill), resolve the region, negotiate the output
format, validate zoom/level, resolve and safeguard the output size, build the
affine transform, and answer with a `MaskResponse` at bit depth 8 plus size
headers.  The existence check of the spatial representation is the HTTP
layer's concern; the spatial image is taken directly. -/
def _show_mask (in_image : SpatialImage) (annotations : List RawAnnotation)
    (context_factor : Option ℚ) (height width length zoom level : Option ℕ)
    (extension : OutputExtension) (headers : ImageAnnotationRequestHeaders)
    (config : Settings) : Except PimsError MaskHttpResponse :=
  let annots := maskAnnots annotations headers in_image
  match maskRegion annotations context_factor headers in_image with
  | Except.error e => Except.error e
  | Except.ok region =>
    match get_output_format extension headers.accept VISUALISATION_MIMETYPES with
    | Except.error e => Except.error e
    | Except.ok fm =>
      match check_zoom_validity in_image.pyramid zoom with
      | Except.error e => Except.error e
      | Except.ok _ =>
        match check_level_validity in_image.pyramid level with
        | Except.error e => Except.error e
        | Except.ok _ =>
          let req_size := get_window_output_dimensions in_image region
            height width length zoom level
          let out_size := safeguard_output_dimensions headers.safe_mode
            config.output_size_limit req_size.1 req_size.2
          let affine := annotation_crop_affine_matrix (collectionRegion annots) region
            out_size.1 out_size.2
          Except.ok (MaskHttpResponse.mk
            (MaskResponse.mk in_image annots affine out_size.1 out_size.2 8 fm.1)
            fm.2
            (add_image_size_limit_header [] req_size.1 req_size.2 out_size.1 out_size.2))

/-- The output colorspace selector of the request
(`pims.api.utils.models.Colorspace`). -/
inductive Colorspace where
  | AUTO
  | COLOR
  | GRAY
deriving DecidableEq, Repr

/-- The `annot_style` dict built by `_show_crop` / `_show_drawing`
(`AnnotationStyleMode.CROP` with its background transparency,
`AnnotationStyleMode.DRAWING` with its point options); §3 RenderStyle. -/
inductive AnnotStyle where
  | crop (background_transparency : ℚ)
  | drawing (point_cross : Bool) (point_envelope_length : Option ℚ)
deriving DecidableEq, Repr

/-- The argument record of `_show_window` (`pims/api/window.py`), field order
following the call sites in `pims/api/annotation.py`. -/
structure WindowRequest where
  region : Rect
  height : Option ℕ
  width : Option ℕ
  length : Option ℕ
  zoom : Option ℕ
  level : Option ℕ
  channels : Option (List ℕ)
  z_slices : Option (List ℕ)
  timepoints : Option (List ℕ)
  min_intensities : Option (List ℚ)
  max_intensities : Option (List ℚ)
  filters : Option (List String)
  gammas : Option (List ℚ)
  bits : ℕ
  colorspace : Colorspace
  annots : List ParsedAnnotation
  annot_style : AnnotStyle
  extension : OutputExtension
  headers : ImageAnnotationRequestHeaders
  config : Settings
  colormaps : Option (List String)
  c_reduction : String
  z_reduction : Option String
  t_reduction : Option String
deriving DecidableEq, Repr

/-- Modelled from the spec: §4.6 Compositor — the inputs that the composited
raster is a function of (window reads over the selected channel/z/time
indices, per-channel intensity rescale, gamma, filters, color maps, reduction
operators, output bit depth and colorspace). -/
structure ComposeSpec where
  image : SpatialImage
  region : Rect
  out_width : ℕ
  out_height : ℕ
  channels : Option (List ℕ)
  z_slices : Option (List ℕ)
  timepoints : Option (List ℕ)
  min_intensities : Option (List ℚ)
  max_intensities : Option (List ℚ)
  filters : Option (List String)
  gammas : Option (List ℚ)
  colormaps : Option (List String)
  bit_depth : ℕ
  colorspace : Colorspace
  c_reduction : String
  z_reduction : Option String
  t_reduction : Option String
deriving DecidableEq, Repr

/-- One annotation as consumed by the Drawing renderer (§4.7): stroked with
its own stroke color and width, filled when a fill color is present. -/
structure DrawnShape where
  geometry : Geometry
  stroke_color : Option Color
  stroke_width : Option ℚ
  fill_color : Option Color
deriving DecidableEq, Repr

/-- Modelled from the spec: §4.7 Renderer — what the annotation overlay of
the output depends on in each mode.  Crop mode uses only the annotation
geometries and the background transparency (stroke/fill style fields are
ignored in this mode); drawing mode uses each annotation's geometry together
with its own style, plus the point-marker options. -/
inductive RenderOverlay where
  | crop (geometries : List Geometry) (background_transparency : ℚ)
  | drawing (shapes : List DrawnShape) (point_cross : Bool)
      (point_envelope_length : Option ℚ)
deriving DecidableEq, Repr

/-- The overlay determined by the annotation style and the parsed
annotations (§4.7). -/
def renderOverlayOf (style : AnnotStyle) (annots : List ParsedAnnotation) :
    RenderOverlay :=
  match style with
  | AnnotStyle.crop bt =>
    RenderOverlay.crop (annots.map (fun a => a.geometry)) bt
  | AnnotStyle.drawing pc pel =>
    RenderOverlay.drawing
      (annots.map (fun a =>
        DrawnShape.mk a.geometry a.stroke_color a.stroke_width a.fill_color))
      pc pel

/-- Modelled from the spec: the response of `_show_window` — the composited
raster description, the annotation overlay, the negotiated format/mimetype
and the size-limit headers (§4.6-§4.8). -/
structure RenderedImage where
  compose : ComposeSpec
  overlay : RenderOverlay
  format : String
  mimetype : String
  extra_headers : List (String × String)
deriving DecidableEq, Repr

/-- Modelled from the spec: `_show_window` (`pims/api/window.py`, not in
src/) — negotiates the output format, validates zoom/level, resolves the
requested size and safeguards it (§4.3-§4.4), composes the raster (§4.6),
renders the annotation overlay (§4.7) and reports requested vs effective
size headers (§4.8). -/
def _show_window (img : SpatialImage) (w : WindowRequest) :
    Except PimsError RenderedImage :=
  match get_output_format w.extension w.headers.accept VISUALISATION_MIMETYPES with
  | Except.error e => Except.error e
  | Except.ok fm =>
    match check_zoom_validity img.pyramid w.zoom with
    | Except.error e => Except.error e
    | Except.ok _ =>
      match check_level_validity img.pyramid w.level with
      | Except.error e => Except.error e
      | Except.ok _ =>
        let req_size := get_window_output_dimensions img w.region
          w.height w.width w.length w.zoom w.level
        let out_size := safeguard_output_dimensions w.headers.safe_mode
          w.config.output_size_limit req_size.1 req_size.2
        Except.ok (RenderedImage.mk
          (ComposeSpec.mk img w.region out_size.1 out_size.2 w.channels w.z_slices
            w.timepoints w.min_intensities w.max_intensities w.filters w.gammas
            w.colormaps w.bits w.colorspace w.c_reduction w.z_reduction w.t_reduction)
          (renderOverlayOf w.annot_style w.annots)
          fm.1 fm.2
          (add_image_size_limit_header [] req_size.1 req_size.2 out_size.1 out_size.2))

/-- The annotation-parsing call of `_show_crop` (`pims/api/annotation.py`
lines 143-148): stroke fields ignored, default white fill, no point-envelope
expansion. -/
def cropAnnots (annotations : List RawAnnotation)
    (headers : ImageAnnotationRequestHeaders) (in_image : SpatialImage) :
    List ParsedAnnotation :=
  parse_annotations annotations ["stroke_width", "stroke_color"]
    (AnnotDefaults.mk (Option.some WHITE) Option.none Option.none)
    Option.none headers.annot_origin (in_image.height : ℚ)

/-- The region-resolution call of `_show_crop` (line 150): no square
adjustment. -/
def cropRegion (annotations : List RawAnnotation) (context_factor : Option ℚ)
    (headers : ImageAnnotationRequestHeaders) (in_image : SpatialImage) :
    Except PimsError Rect :=
  get_annotation_region in_image (cropAnnots annotations headers in_image)
    context_factor false

/-- `pims.api.annotation._show_crop`: parse annotations (stroke fields
ignored, default white fill), resolve the region, and delegate to
`_show_window` with crop style and the caller's `bits` and `colorspace`. -/
def _show_crop (in_image : SpatialImage) (annotations : List RawAnnotation)
    (context_factor : Option ℚ) (background_transparency : ℚ)
    (height width length zoom level : Option ℕ)
    (channels z_slices timepoints : Option (List ℕ))
    (min_intensities max_intensities : Option (List ℚ))
    (filters : Option (List String)) (gammas : Option (List ℚ))
    (bits : ℕ) (colorspace : Colorspace)
    (extension : OutputExtension) (headers : ImageAnnotationRequestHeaders)
    (config : Settings) (colormaps : Option (List String)) (c_reduction : String)
    (z_reduction t_reduction : Option String) : Except PimsError RenderedImage :=
  let annots := cropAnnots annotations headers in_image
  match cropRegion annotations context_factor headers in_image with
  | Except.error e => Except.error e
  | Except.ok region =>
    _show_window in_image (WindowRequest.mk region height width length zoom level
      channels z_slices timepoints min_intensities max_intensities filters gammas
      bits colorspace annots (AnnotStyle.crop background_transparency)
      extension headers config colormaps c_reduction z_reduction t_reduction)

/-- The annotation-parsing call of `_show_drawing` (lines 205-211):
`fill_color` ignored, default stroke width 1, the caller's
`point_envelope_length` forwarded. -/
def drawingAnnots (annotations : List RawAnnotation)
    (point_envelope_length : Option ℚ)
    (headers : ImageAnnotationRequestHeaders) (in_image : SpatialImage) :
    List ParsedAnnotation :=
  parse_annotations annotations ["fill_color"]
    (AnnotDefaults.mk Option.none Option.none (Option.some 1))
    point_envelope_length headers.annot_origin (in_image.height : ℚ)

/-- The region-resolution call of `_show_drawing` (line 213): the caller's
`try_square` forwarded. -/
def drawingRegion (annotations : List RawAnnotation) (context_factor : Option ℚ)
    (try_square : Bool) (point_envelope_length : Option ℚ)
    (headers : ImageAnnotationRequestHeaders) (in_image : SpatialImage) :
    Except PimsError Rect :=
  get_annotation_region in_image
    (drawingAnnots annotations point_envelope_length headers in_image)
    context_factor try_square

/-- `pims.api.annotation._show_drawing`: parse annotations (`fill_color`
ignored, default stroke width 1, point-envelope expansion forwarded), resolve
the region (square adjustment forwarded), and delegate to `_show_window` with
drawing style and hardcoded bit depth 8 and colorspace AUTO.  The `log`
parameter of the signature is not forwarded. -/
def _show_drawing (in_image : SpatialImage) (annotations : List RawAnnotation)
    (context_factor : Option ℚ)
    (try_square point_cross : Bool) (point_envelope_length : Option ℚ)
    (height width length zoom level : Option ℕ)
    (channels z_slices timepoints : Option (List ℕ))
    (min_intensities max_intensities : Option (List ℚ))
    (filters : Option (List String)) (gammas : Option (List ℚ)) (log : Option Bool)
    (extension : OutputExtension) (headers : ImageAnnotationRequestHeaders)
    (config : Settings) (colormaps : Option (List String)) (c_reduction : String)
    (z_reduction t_reduction : Option String) : Except PimsError RenderedImage :=
  let annots := drawingAnnots annotations point_envelope_length headers in_image
  match drawingRegion annotations context_factor try_square point_envelope_length
    headers in_image with
  | Except.error e => Except.error e
  | Except.ok region =>
    _show_window in_image (WindowRequest.mk region height width length zoom level
      channels z_slices timepoints min_intensities max_intensities filters gammas
      8 Colorspace.AUTO annots (AnnotStyle.drawing point_cross point_envelope_length)
      extension headers config colormaps c_reduction z_reduction t_reduction)

/-- Modelled from the spec: §6 — the request shape for drawing mode as the
spec describes it, including output `bits` and `colorspace` fields
(`AnnotationDrawingRequest` lives in `pims/api/utils/models.py`, not in
src/). -/
structure AnnotationDrawingRequest where
  annotations : List RawAnnotation
  context_factor : Option ℚ
  try_square : Bool
  point_cross : Bool
  point_envelope_length : Option ℚ
  height : Option ℕ
  width : Option ℕ
  length : Option ℕ
  zoom : Option ℕ
  level : Option ℕ
  channels : Option (List ℕ)
  z_slices : Option (List ℕ)
  timepoints : Option (List ℕ)
  min_intensities : Option (List ℚ)
  max_intensities : Option (List ℚ)
  filters : Option (List String)
  gammas : Option (List ℚ)
  log : Option Bool
  bits : ℕ
  colorspace : Colorspace
deriving DecidableEq, Repr

/-- The drawing route `show_drawing` forwards the request body fields to
`_show_drawing` with default `colormaps`/reductions; `_show_drawing` accepts
no `bits` or `colorspace` parameter, so those request fields cannot reach the
pipeline. -/
def show_drawing (req : AnnotationDrawingRequest) (in_image : SpatialImage)
    (extension : OutputExtension) (headers : ImageAnnotationRequestHeaders)
    (config : Settings) : Except PimsError RenderedImage :=
  _show_drawing in_image req.annotations req.context_factor req.try_square
    req.point_cross req.point_envelope_length req.height req.width req.length
    req.zoom req.level req.channels req.z_slices req.timepoints
    req.min_intensities req.max_intensities req.filters req.gammas req.log
    extension headers config Option.none "ADD" Option.none Option.none

/-- Extract the `ok` payload of an `Except`, with a default. -/
def exceptOkD {α : Type} (e : Except PimsError α) (d : α) : α :=
  match e with
  | Except.ok r => r
  | Except.error _ => d

/-- The output bit depth of a rendered response, when rendering succeeded. -/
def renderedBitDepth : Except PimsError RenderedImage → Option ℕ
  | Except.ok r => Option.some r.compose.bit_depth
  | Except.error _ => Option.none

/-- The output colorspace of a rendered response, when rendering
succeeded. -/
def renderedColorspace : Except PimsError RenderedImage → Option Colorspace
  | Except.ok r => Option.some r.compose.colorspace
  | Except.error _ => Option.none

/-- The fill colors of the drawing overlay's shapes, when rendering succeeded
in drawing mode. -/
def drawingFills : Except PimsError RenderedImage → List (Option Color)
  | Except.ok r =>
    match r.overlay with
    | RenderOverlay.drawing shapes _ _ => shapes.map (fun s => s.fill_color)
    | RenderOverlay.crop _ _ => []
  | Except.error _ => []

/-! ### Claim theorems for the annotation pipelines -/

/-- C8: For every mask request, the rendered mask raster always has bit depth
8, independently of the source image and of any request parameter
(`_show_mask` passes the literal 8 to `MaskResponse`). -/
theorem C8_mask_bit_depth_always_8 (in_image : SpatialImage)
    (annotations : List RawAnnotation) (context_factor : Option ℚ)
    (height width length zoom level : Option ℕ) (extension : OutputExtension)
    (headers : ImageAnnotationRequestHeaders) (config : Settings)
    (resp : MaskHttpResponse)
    (h : _show_mask in_image annotations context_factor height width length zoom level
      extension headers config = Except.ok resp) :
    resp.mask.bits = 8 := by
  unfold _show_mask at h
  repeat' split at h
  any_goals exact Except.noConfusion h
  injection h with h
  rw [← h]

/-- A 100×100 single-level image used by concrete witnesses. -/
def wImg : SpatialImage := SpatialImage.mk 100 100 (Pyramid.mk 0 0)

/-- Witness request headers: top-left origin, clamping permitted. -/
def wHeaders : ImageAnnotationRequestHeaders :=
  ImageAnnotationRequestHeaders.mk AnnotOrigin.leftTop SafeMode.safeResize "image/png"

/-- Witness configuration with a large output size limit. -/
def wConfig : Settings := Settings.mk 1000000

/-- A square annotation payload with no style fields. -/
def wRaw : RawAnnotation :=
  RawAnnotation.mk (Geometry.polygon [(0, 0), (10, 0), (10, 10), (0, 10)])
    Option.none Option.none Option.none

/-- Fallback response used when extracting `ok` payloads in witnesses. -/
def wMaskFallback : MaskHttpResponse :=
  MaskHttpResponse.mk
    (MaskResponse.mk wImg [] (AffineMatrix.mk 1 0 0 0 1 0) 0 0 0 "") "" []

/-- The mask response of the witness request. -/
def wMaskResp : MaskHttpResponse :=
  exceptOkD
    (_show_mask wImg [wRaw] Option.none Option.none Option.none Option.none
      Option.none Option.none OutputExtension.png wHeaders wConfig)
    wMaskFallback

/-- Witness for C8: the concrete mask request succeeds and its response has
bit depth 8. -/
theorem C8_mask_bit_depth_always_8_witness :
    _show_mask wImg [wRaw] Option.none Option.none Option.none Option.none
      Option.none Option.none OutputExtension.png wHeaders wConfig =
      Except.ok wMaskResp ∧
    wMaskResp.mask.bits = 8 :=
  ⟨rfl, C8_mask_bit_depth_always_8 wImg [wRaw] Option.none Option.none Option.none
    Option.none Option.none Option.none OutputExtension.png wHeaders wConfig
    wMaskResp rfl⟩

/-- C4: For every mask request, the dimensions used to render the output are
the result of applying the output-size safeguard (with the request's safe
mode and the configured output size limit) to the requested size computed by
the scale resolver on the resolved region, and the response headers are built
from both the requested size and the effective size. -/
theorem C4_mask_safeguard_and_headers (in_image : SpatialImage)
    (annotations : List RawAnnotation) (context_factor : Option ℚ)
    (height width length zoom level : Option ℕ) (extension : OutputExtension)
    (headers : ImageAnnotationRequestHeaders) (config : Settings)
    (resp : MaskHttpResponse) (region : Rect)
    (h : _show_mask in_image annotations context_factor height width length zoom level
      extension headers config = Except.ok resp)
    (hregion : maskRegion annotations context_factor headers in_image =
      Except.ok region) :
    (resp.mask.out_width, resp.mask.out_height) =
      safeguard_output_dimensions headers.safe_mode config.output_size_limit
        (get_window_output_dimensions in_image region height width length zoom level).1
        (get_window_output_dimensions in_image region height width length zoom level).2 ∧
    resp.extra_headers = add_image_size_limit_header []
      (get_window_output_dimensions in_image region height width length zoom level).1
      (get_window_output_dimensions in_image region height width length zoom level).2
      (safeguard_output_dimensions headers.safe_mode config.output_size_limit
        (get_window_output_dimensions in_image region height width length zoom level).1
        (get_window_output_dimensions in_image region height width length zoom level).2).1
      (safeguard_output_dimensions headers.safe_mode config.output_size_limit
        (get_window_output_dimensions in_image region height width length zoom level).1
        (get_window_output_dimensions in_image region height width length zoom level).2).2 := by
  unfold _show_mask at h
  rw [hregion] at h
  repeat' split at h
  any_goals exact Except.noConfusion h
  rename_i xr region2 heqr xf fm heqf xz uz heqz xl ul heql
  injection heqr with heqr
  subst heqr
  injection h with h
  exact ⟨by rw [← h], by rw [← h]⟩

/-- The resolved region of the witness mask request. -/
def wMaskRegion : Rect :=
  exceptOkD (maskRegion [wRaw] Option.none wHeaders wImg) (Rect.mk 0 0 0 0)

/-- Witness for C4: the concrete mask request succeeds, its region resolves,
and the response dimensions and headers are the safeguarded ones. -/
theorem C4_mask_safeguard_and_headers_witness :
    _show_mask wImg [wRaw] Option.none Option.none Option.none Option.none
      Option.none Option.none OutputExtension.png wHeaders wConfig =
      Except.ok wMaskResp ∧
    maskRegion [wRaw] Option.none wHeaders wImg = Except.ok wMaskRegion ∧
    ((wMaskResp.mask.out_width, wMaskResp.mask.out_height) =
      safeguard_output_dimensions wHeaders.safe_mode wConfig.output_size_limit
        (get_window_output_dimensions wImg wMaskRegion Option.none Option.none
          Option.none Option.none Option.none).1
        (get_window_output_dimensions wImg wMaskRegion Option.none Option.none
          Option.none Option.none Option.none).2 ∧
    wMaskResp.extra_headers = add_image_size_limit_header []
      (get_window_output_dimensions wImg wMaskRegion Option.none Option.none
        Option.none Option.none Option.none).1
      (get_window_output_dimensions wImg wMaskRegion Option.none Option.none
        Option.none Option.none Option.none).2
      (safeguard_output_dimensions wHeaders.safe_mode wConfig.output_size_limit
        (get_window_output_dimensions wImg wMaskRegion Option.none Option.none
          Option.none Option.none Option.none).1
        (get_window_output_dimensions wImg wMaskRegion Option.none Option.none
          Option.none Option.none Option.none).2).1
      (safeguard_output_dimensions wHeaders.safe_mode wConfig.output_size_limit
        (get_window_output_dimensions wImg wMaskRegion Option.none Option.none
          Option.none Option.none Option.none).1
        (get_window_output_dimensions wImg wMaskRegion Option.none Option.none
          Option.none Option.none Option.none).2).2) :=
  ⟨rfl, rfl,
    C4_mask_safeguard_and_headers wImg [wRaw] Option.none Option.none Option.none
      Option.none Option.none Option.none OutputExtension.png wHeaders wConfig
      wMaskResp wMaskRegion rfl rfl⟩

/-- The parsed annotations of a successful mask response are exactly the
`parse_annotations` call of `_show_mask`. -/
theorem show_mask_ok_annots (in_image : SpatialImage)
    (annotations : List RawAnnotation) (context_factor : Option ℚ)
    (height width length zoom level : Option ℕ) (extension : OutputExtension)
    (headers : ImageAnnotationRequestHeaders) (config : Settings)
    (resp : MaskHttpResponse)
    (h : _show_mask in_image annotations context_factor height width length zoom level
      extension headers config = Except.ok resp) :
    resp.mask.annots = maskAnnots annotations headers in_image := by
  unfold _show_mask at h
  repeat' split at h
  any_goals exact Except.noConfusion h
  injection h with h
  rw [← h]

/-- C3: For every mask request, annotation parsing drops `stroke_width` and
`stroke_color` even when present in the payload, and — per annotation, also
in mixed requests — every annotation whose payload omits `fill_color`
receives the default white fill: the parsed list is exactly the payload list
with stroke fields dropped and fill defaulted to white.  Consequently an
all-default request renders only black background and white fills, a
white-foreground binary mask. -/
theorem C3_mask_parse_defaults (in_image : SpatialImage)
    (annotations : List RawAnnotation) (context_factor : Option ℚ)
    (height width length zoom level : Option ℕ) (extension : OutputExtension)
    (headers : ImageAnnotationRequestHeaders) (config : Settings)
    (resp : MaskHttpResponse)
    (h : _show_mask in_image annotations context_factor height width length zoom level
      extension headers config = Except.ok resp) :
    (∀ a ∈ resp.mask.annots, a.stroke_width = Option.none ∧ a.stroke_color = Option.none) ∧
    resp.mask.annots = annotations.map (fun raw => ParsedAnnotation.mk
      (normalizeOrigin headers.annot_origin (in_image.height : ℚ) raw.geometry)
      (Option.some (raw.fill_color.getD WHITE)) Option.none Option.none) ∧
    (∀ (i : ℕ) (hi : i < annotations.length) (hi2 : i < resp.mask.annots.length),
      (annotations.get ⟨i, hi⟩).fill_color = Option.none →
      (resp.mask.annots.get ⟨i, hi2⟩).fill_color = Option.some WHITE) ∧
    ((∀ raw ∈ annotations, raw.fill_color = Option.none) →
      (∀ a ∈ resp.mask.annots, a.fill_color = Option.some WHITE) ∧
      ∀ c ∈ maskPalette resp.mask, c = Color.mk 0 0 0 ∨ c = WHITE) := by
  have hann := show_mask_ok_annots in_image annotations context_factor height width
    length zoom level extension headers config resp h
  have hmap : resp.mask.annots = annotations.map (fun raw => ParsedAnnotation.mk
      (normalizeOrigin headers.annot_origin (in_image.height : ℚ) raw.geometry)
      (Option.some (raw.fill_color.getD WHITE)) Option.none Option.none) := by
    rw [hann]
    unfold maskAnnots parse_annotations
    apply List.map_congr_left
    intro raw hraw
    have e1 : (["stroke_width", "stroke_color"] : List String).contains "fill_color"
      = false := rfl
    have e2 : (["stroke_width", "stroke_color"] : List String).contains "stroke_color"
      = true := rfl
    have e3 : (["stroke_width", "stroke_color"] : List String).contains "stroke_width"
      = true := rfl
    simp only [styleField, e1, e2, e3, if_true, if_false, Bool.false_eq_true,
      applyPointEnvelope_none]
    cases raw.fill_color <;> rfl
  have hstroke : ∀ a ∈ resp.mask.annots,
      a.stroke_width = Option.none ∧ a.stroke_color = Option.none := by
    intro a ha
    rw [hmap] at ha
    obtain ⟨raw, hraw, hra⟩ := List.mem_map.mp ha
    rw [← hra]
    exact ⟨rfl, rfl⟩
  have hfill : (∀ raw ∈ annotations, raw.fill_color = Option.none) →
      ∀ a ∈ resp.mask.annots, a.fill_color = Option.some WHITE := by
    intro hdef a ha
    rw [hmap] at ha
    obtain ⟨raw, hraw, hra⟩ := List.mem_map.mp ha
    rw [← hra]
    show Option.some (raw.fill_color.getD WHITE) = Option.some WHITE
    rw [hdef raw hraw]
    rfl
  refine ⟨hstroke, hmap, ?_, ?_⟩
  · intro i hi hi2 hfilli
    rw [List.get_of_eq hmap ⟨i, hi2⟩, List.get_map]
    show Option.some ((annotations.get ⟨i, hi⟩).fill_color.getD WHITE) =
      Option.some WHITE
    rw [hfilli]
    rfl
  · intro hdef
    refine ⟨hfill hdef, ?_⟩
    intro c hc
    unfold maskPalette at hc
    rcases List.mem_cons.mp hc with h1 | h1
    · exact Or.inl h1
    · obtain ⟨a, ha, hfa⟩ := List.mem_filterMap.mp h1
      right
      have := hfill hdef a ha
      rw [this] at hfa
      exact (Option.some.inj hfa).symm

/-- A successful `_show_window` response carries the overlay of its style and
annotations, and the caller's bit depth and colorspace. -/
theorem show_window_ok_spec (img : SpatialImage) (w : WindowRequest)
    (r : RenderedImage) (h : _show_window img w = Except.ok r) :
    r.overlay = renderOverlayOf w.annot_style w.annots ∧
    r.compose.bit_depth = w.bits ∧ r.compose.colorspace = w.colorspace := by
  unfold _show_window at h
  repeat' split at h
  any_goals exact Except.noConfusion h
  injection h with h
  exact ⟨by rw [← h], by rw [← h], by rw [← h]⟩

/-- C2 (amended): For every drawing request, each annotation is stroked using
its own payload stroke color and stroke width, an annotation whose payload
omits the stroke width getting the default stroke width 1 — but the payload's
`fill_color` is dropped by the parser (`ignore_fields=['fill_color']`), so no
annotation is ever filled with a payload-supplied fill color. -/
theorem C2_drawing_stroke_own_fill_dropped (in_image : SpatialImage)
    (annotations : List RawAnnotation) (context_factor : Option ℚ)
    (try_square point_cross : Bool) (point_envelope_length : Option ℚ)
    (height width length zoom level : Option ℕ)
    (channels z_slices timepoints : Option (List ℕ))
    (min_intensities max_intensities : Option (List ℚ))
    (filters : Option (List String)) (gammas : Option (List ℚ)) (log : Option Bool)
    (extension : OutputExtension) (headers : ImageAnnotationRequestHeaders)
    (config : Settings) (colormaps : Option (List String)) (c_reduction : String)
    (z_reduction t_reduction : Option String) (result : RenderedImage)
    (h : _show_drawing in_image annotations context_factor try_square point_cross
      point_envelope_length height width length zoom level channels z_slices
      timepoints min_intensities max_intensities filters gammas log extension
      headers config colormaps c_reduction z_reduction t_reduction =
      Except.ok result) :
    result.overlay = RenderOverlay.drawing
      (annotations.map (fun raw => DrawnShape.mk
        (applyPointEnvelope point_envelope_length
          (normalizeOrigin headers.annot_origin (in_image.height : ℚ) raw.geometry))
        raw.stroke_color
        (Option.some (raw.stroke_width.getD 1))
        Option.none))
      point_cross point_envelope_length := by
  unfold _show_drawing at h
  split at h
  · exact Except.noConfusion h
  · have hspec := show_window_ok_spec _ _ _ h
    rw [hspec.1]
    show renderOverlayOf (AnnotStyle.drawing point_cross point_envelope_length)
      (drawingAnnots annotations point_envelope_length headers in_image) = _
    simp only [renderOverlayOf]
    unfold drawingAnnots parse_annotations
    rw [List.map_map]
    congr 1
    apply List.map_congr_left
    intro raw hraw
    have e1 : (["fill_color"] : List String).contains "stroke_color" = false := rfl
    have e2 : (["fill_color"] : List String).contains "stroke_width" = false := rfl
    have e3 : (["fill_color"] : List String).contains "fill_color" = true := rfl
    simp only [Function.comp, styleField, e1, e2, e3, if_true, if_false,
      Bool.false_eq_true]
    cases raw.stroke_color <;> cases raw.stroke_width <;> rfl

/-- A drawing-mode annotation payload supplying a red fill color and a green
stroke color. -/
def wRawRed : RawAnnotation :=
  RawAnnotation.mk (Geometry.polygon [(0, 0), (10, 0), (10, 10), (0, 10)])
    (Option.some (Color.mk 255 0 0)) (Option.some (Color.mk 0 255 0)) Option.none

/-- The concrete drawing request used by C2's counterexample and witness. -/
def wDrawingCall : Except PimsError RenderedImage :=
  _show_drawing wImg [wRawRed] Option.none false false Option.none
    Option.none Option.none Option.none Option.none Option.none
    Option.none Option.none Option.none Option.none Option.none
    Option.none Option.none Option.none OutputExtension.png wHeaders wConfig
    Option.none "ADD" Option.none Option.none

/-- C2 counterexample: the drawing payload supplies `fill_color` red, yet the
rendered drawing shape has no fill color — the payload fill color is never
used in drawing mode, refuting the claim that a supplied fill color fills the
annotation. -/
theorem C2_counterexample_fill_dropped :
    wRawRed.fill_color = Option.some (Color.mk 255 0 0) ∧
    drawingFills wDrawingCall = [Option.none] :=
  ⟨rfl, rfl⟩

/-- Fallback rendered response used when extracting `ok` payloads in
witnesses. -/
def wRenderedFallback : RenderedImage :=
  RenderedImage.mk
    (ComposeSpec.mk wImg (Rect.mk 0 0 0 0) 0 0 Option.none Option.none Option.none
      Option.none Option.none Option.none Option.none Option.none 0 Colorspace.AUTO
      "ADD" Option.none Option.none)
    (RenderOverlay.crop [] 0) "" "" []

/-- The rendered response of the concrete drawing request. -/
def wDrawingResult : RenderedImage := exceptOkD wDrawingCall wRenderedFallback

/-- Witness for the amended C2 at the concrete drawing request. -/
theorem C2_drawing_stroke_own_fill_dropped_witness :
    wDrawingCall = Except.ok wDrawingResult ∧
    wDrawingResult.overlay = RenderOverlay.drawing
      ([wRawRed].map (fun raw => DrawnShape.mk
        (applyPointEnvelope Option.none
          (normalizeOrigin wHeaders.annot_origin (wImg.height : ℚ) raw.geometry))
        raw.stroke_color (Option.some (raw.stroke_width.getD 1)) Option.none))
      false Option.none :=
  ⟨rfl, C2_drawing_stroke_own_fill_dropped wImg [wRawRed] Option.none false false
    Option.none Option.none Option.none Option.none Option.none Option.none
    Option.none Option.none Option.none Option.none Option.none Option.none
    Option.none Option.none OutputExtension.png wHeaders wConfig Option.none "ADD"
    Option.none Option.none wDrawingResult rfl⟩

/-- C5 (amended): For every crop request the caller-supplied `bits` and
`colorspace` determine the output bit depth and colorspace of the composited
raster; every drawing request instead composes at the hardcoded bit depth 8
and colorspace AUTO, whatever the caller sends. -/
theorem C5_crop_honors_bits_drawing_fixed :
    (∀ (in_image : SpatialImage) (annotations : List RawAnnotation)
      (context_factor : Option ℚ) (background_transparency : ℚ)
      (height width length zoom level : Option ℕ)
      (channels z_slices timepoints : Option (List ℕ))
      (min_intensities max_intensities : Option (List ℚ))
      (filters : Option (List String)) (gammas : Option (List ℚ))
      (bits : ℕ) (colorspace : Colorspace) (extension : OutputExtension)
      (headers : ImageAnnotationRequestHeaders) (config : Settings)
      (colormaps : Option (List String)) (c_reduction : String)
      (z_reduction t_reduction : Option String) (result : RenderedImage),
      _show_crop in_image annotations context_factor background_transparency
        height width length zoom level channels z_slices timepoints
        min_intensities max_intensities filters gammas bits colorspace
        extension headers config colormaps c_reduction z_reduction t_reduction =
        Except.ok result →
      result.compose.bit_depth = bits ∧ result.compose.colorspace = colorspace) ∧
    (∀ (in_image : SpatialImage) (annotations : List RawAnnotation)
      (context_factor : Option ℚ) (try_square point_cross : Bool)
      (point_envelope_length : Option ℚ) (height width length zoom level : Option ℕ)
      (channels z_slices timepoints : Option (List ℕ))
      (min_intensities max_intensities : Option (List ℚ))
      (filters : Option (List String)) (gammas : Option (List ℚ)) (log : Option Bool)
      (extension : OutputExtension) (headers : ImageAnnotationRequestHeaders)
      (config : Settings) (colormaps : Option (List String)) (c_reduction : String)
      (z_reduction t_reduction : Option String) (result : RenderedImage),
      _show_drawing in_image annotations context_factor try_square point_cross
        point_envelope_length height width length zoom level channels z_slices
        timepoints min_intensities max_intensities filters gammas log extension
        headers config colormaps c_reduction z_reduction t_reduction =
        Except.ok result →
      result.compose.bit_depth = 8 ∧ result.compose.colorspace = Colorspace.AUTO) := by
  constructor
  · intro in_image annotations context_factor background_transparency height width
      length zoom level channels z_slices timepoints min_intensities max_intensities
      filters gammas bits colorspace extension headers config colormaps c_reduction
      z_reduction t_reduction result h
    unfold _show_crop at h
    split at h
    · exact Except.noConfusion h
    · have hspec := show_window_ok_spec _ _ _ h
      exact ⟨hspec.2.1, hspec.2.2⟩
  · intro in_image annotations context_factor try_square point_cross
      point_envelope_length height width length zoom level channels z_slices
      timepoints min_intensities max_intensities filters gammas log extension
      headers config colormaps c_reduction z_reduction t_reduction result h
    unfold _show_drawing at h
    split at h
    · exact Except.noConfusion h
    · have hspec := show_window_ok_spec _ _ _ h
      exact ⟨hspec.2.1, hspec.2.2⟩

/-- The spec-described drawing request carrying caller `bits = 16` and
`colorspace = GRAY`. -/
def wDrawingReq16 : AnnotationDrawingRequest :=
  AnnotationDrawingRequest.mk [wRaw] Option.none false false Option.none
    Option.none Option.none Option.none Option.none Option.none
    Option.none Option.none Option.none Option.none Option.none
    Option.none Option.none Option.none 16 Colorspace.GRAY

/-- C5 counterexample: the drawing request carries caller `bits = 16` and
`colorspace = GRAY`, yet the composited raster has bit depth 8 and colorspace
AUTO — the caller-supplied values do not determine the drawing output,
refuting the claim for drawing requests. -/
theorem C5_counterexample_drawing_ignores_bits :
    wDrawingReq16.bits = 16 ∧ wDrawingReq16.colorspace = Colorspace.GRAY ∧
    renderedBitDepth
      (show_drawing wDrawingReq16 wImg OutputExtension.png wHeaders wConfig) =
      Option.some 8 ∧
    renderedColorspace
      (show_drawing wDrawingReq16 wImg OutputExtension.png wHeaders wConfig) =
      Option.some Colorspace.AUTO ∧
    Option.some wDrawingReq16.bits ≠
      renderedBitDepth
        (show_drawing wDrawingReq16 wImg OutputExtension.png wHeaders wConfig) ∧
    Option.some wDrawingReq16.colorspace ≠
      renderedColorspace
        (show_drawing wDrawingReq16 wImg OutputExtension.png wHeaders wConfig) := by
  refine ⟨rfl, rfl, rfl, rfl, ?_, ?_⟩ <;> decide

/-- The concrete crop request (caller bits 12, colorspace GRAY) used by C5's
witness. -/
def wCropCall : Except PimsError RenderedImage :=
  _show_crop wImg [wRaw] Option.none 100 Option.none Option.none Option.none
    Option.none Option.none Option.none Option.none Option.none Option.none
    Option.none Option.none Option.none 12 Colorspace.GRAY OutputExtension.png
    wHeaders wConfig Option.none "ADD" Option.none Option.none

/-- The rendered response of the concrete crop request. -/
def wCropResult : RenderedImage := exceptOkD wCropCall wRenderedFallback

/-- Witness for the amended C5: the concrete crop request renders at the
caller's bits/colorspace and the concrete drawing request at 8/AUTO. -/
theorem C5_crop_honors_bits_drawing_fixed_witness :
    wCropCall = Except.ok wCropResult ∧
    (wCropResult.compose.bit_depth = 12 ∧
      wCropResult.compose.colorspace = Colorspace.GRAY) ∧
    wDrawingCall = Except.ok wDrawingResult ∧
    (wDrawingResult.compose.bit_depth = 8 ∧
      wDrawingResult.compose.colorspace = Colorspace.AUTO) :=
  ⟨rfl,
    C5_crop_honors_bits_drawing_fixed.1 wImg [wRaw] Option.none 100 Option.none
      Option.none Option.none Option.none Option.none Option.none Option.none
      Option.none Option.none Option.none Option.none Option.none 12
      Colorspace.GRAY OutputExtension.png wHeaders wConfig Option.none "ADD"
      Option.none Option.none wCropResult rfl,
    rfl,
    C5_crop_honors_bits_drawing_fixed.2 wImg [wRawRed] Option.none false false
      Option.none Option.none Option.none Option.none Option.none Option.none
      Option.none Option.none Option.none Option.none Option.none Option.none
      Option.none Option.none OutputExtension.png wHeaders wConfig Option.none
      "ADD" Option.none Option.none wDrawingResult rfl⟩

/-- C6: Only the drawing pipeline applies the square-aspect adjustment and
the point-envelope expansion.  The mask and crop pipelines parse without
point-envelope expansion (their geometries are exactly the origin-normalized
payload geometries) and resolve their regions without the square adjustment;
the drawing pipeline forwards `point_envelope_length` to the parser (its
geometries are the expanded ones) and `try_square` to the region resolver
(with `try_square` set, its region is the square-adjusted one). -/
theorem C6_only_drawing_square_and_envelope :
    (∀ (annotations : List RawAnnotation) (headers : ImageAnnotationRequestHeaders)
      (in_image : SpatialImage),
      (maskAnnots annotations headers in_image).map (fun a => a.geometry) =
        annotations.map (fun raw =>
          normalizeOrigin headers.annot_origin (in_image.height : ℚ) raw.geometry) ∧
      (cropAnnots annotations headers in_image).map (fun a => a.geometry) =
        annotations.map (fun raw =>
          normalizeOrigin headers.annot_origin (in_image.height : ℚ) raw.geometry)) ∧
    (∀ (annotations : List RawAnnotation) (context_factor : Option ℚ)
      (headers : ImageAnnotationRequestHeaders) (in_image : SpatialImage)
      (region : Rect),
      (maskRegion annotations context_factor headers in_image = Except.ok region →
        region = clipRect in_image (scaleRectAboutCenter (context_factor.getD 1)
          (collectionRegion (maskAnnots annotations headers in_image)))) ∧
      (cropRegion annotations context_factor headers in_image = Except.ok region →
        region = clipRect in_image (scaleRectAboutCenter (context_factor.getD 1)
          (collectionRegion (cropAnnots annotations headers in_image))))) ∧
    (∀ (annotations : List RawAnnotation) (point_envelope_length : Option ℚ)
      (headers : ImageAnnotationRequestHeaders) (in_image : SpatialImage),
      (drawingAnnots annotations point_envelope_length headers in_image).map
        (fun a => a.geometry) =
        annotations.map (fun raw => applyPointEnvelope point_envelope_length
          (normalizeOrigin headers.annot_origin (in_image.height : ℚ)
            raw.geometry))) ∧
    (∀ (annotations : List RawAnnotation) (context_factor point_envelope_length : Option ℚ)
      (headers : ImageAnnotationRequestHeaders) (in_image : SpatialImage)
      (region : Rect),
      drawingRegion annotations context_factor true point_envelope_length headers
        in_image = Except.ok region →
      region = clipRect in_image (trySquareRect (scaleRectAboutCenter
        (context_factor.getD 1)
        (collectionRegion (drawingAnnots annotations point_envelope_length headers
          in_image))))) := by
  refine ⟨?_, ?_, ?_, ?_⟩
  · intro annotations headers in_image
    constructor <;>
    · simp only [maskAnnots, cropAnnots, parse_annotations]
      rw [List.map_map]
      apply List.map_congr_left
      intro raw hraw
      exact applyPointEnvelope_none _
  · intro annotations context_factor headers in_image region
    constructor
    · intro h
      simp only [maskRegion, get_annotation_region] at h
      unfold collectionRegion
      cases henv : collectionEnvelope (maskAnnots annotations headers in_image) with
      | none =>
        rw [henv] at h
        exact Except.noConfusion h
      | some env =>
        rw [henv] at h
        injection h with h
        rw [← h]
        rfl
    · intro h
      simp only [cropRegion, get_annotation_region] at h
      unfold collectionRegion
      cases henv : collectionEnvelope (cropAnnots annotations headers in_image) with
      | none =>
        rw [henv] at h
        exact Except.noConfusion h
      | some env =>
        rw [henv] at h
        injection h with h
        rw [← h]
        rfl
  · intro annotations point_envelope_length headers in_image
    unfold drawingAnnots parse_annotations
    rw [List.map_map]
    apply List.map_congr_left
    intro raw hraw
    rfl
  · intro annotations context_factor point_envelope_length headers in_image region h
    simp only [drawingRegion, get_annotation_region] at h
    unfold collectionRegion
    cases henv : collectionEnvelope
      (drawingAnnots annotations point_envelope_length headers in_image) with
    | none =>
      rw [henv] at h
      exact Except.noConfusion h
    | some env =>
      rw [henv] at h
      injection h with h
      rw [← h]
      rfl

/-- A wide (non-square) annotation payload. -/
def wRawWide : RawAnnotation :=
  RawAnnotation.mk (Geometry.polygon [(0, 0), (20, 0), (20, 10), (0, 10)])
    Option.none Option.none Option.none

/-- The square-adjusted drawing region of the wide annotation. -/
def wDrawRegionSq : Rect :=
  exceptOkD (drawingRegion [wRawWide] Option.none true Option.none wHeaders wImg)
    (Rect.mk 0 0 0 0)

/-- Witness for C6 at concrete requests: the mask parse/region use no point
envelope and no square adjustment, and a drawing region with `try_square` set
is the square-adjusted one. -/
theorem C6_only_drawing_square_and_envelope_witness :
    ((maskAnnots [wRaw] wHeaders wImg).map (fun a => a.geometry) =
      [wRaw].map (fun raw =>
        normalizeOrigin wHeaders.annot_origin (wImg.height : ℚ) raw.geometry)) ∧
    maskRegion [wRaw] Option.none wHeaders wImg = Except.ok wMaskRegion ∧
    (wMaskRegion = clipRect wImg (scaleRectAboutCenter ((Option.none : Option ℚ).getD 1)
      (collectionRegion (maskAnnots [wRaw] wHeaders wImg)))) ∧
    drawingRegion [wRawWide] Option.none true Option.none wHeaders wImg =
      Except.ok wDrawRegionSq ∧
    (wDrawRegionSq = clipRect wImg (trySquareRect (scaleRectAboutCenter
      ((Option.none : Option ℚ).getD 1)
      (collectionRegion (drawingAnnots [wRawWide] Option.none wHeaders wImg))))) :=
  ⟨(C6_only_drawing_square_and_envelope.1 [wRaw] wHeaders wImg).1,
    rfl,
    (C6_only_drawing_square_and_envelope.2.1 [wRaw] Option.none wHeaders wImg
      wMaskRegion).1 rfl,
    rfl,
    C6_only_drawing_square_and_envelope.2.2.2 [wRawWide] Option.none Option.none
      wHeaders wImg wDrawRegionSq rfl⟩

/-- The coordinates of a collection are those of its geometry list. -/
theorem flatMap_geomCoords (annots : List ParsedAnnotation) :
    annots.flatMap (fun a => geomCoords a.geometry) =
      (annots.map (fun a => a.geometry)).flatMap geomCoords := by
  induction annots with
  | nil => rfl
  | cons a as ih => simp only [List.flatMap_cons, List.map_cons, ih]

/-- Payload lists that agree on geometries parse to annotations that agree on
geometries, whatever the style fields. -/
theorem parse_annotations_geoms_congr (raws1 raws2 : List RawAnnotation)
    (hsty : List.Forall₂ (fun a b => a.geometry = b.geometry) raws1 raws2)
    (ig : List String) (df : AnnotDefaults) (pel : Option ℚ)
    (origin : AnnotOrigin) (imh : ℚ) :
    (parse_annotations raws1 ig df pel origin imh).map (fun a => a.geometry) =
      (parse_annotations raws2 ig df pel origin imh).map (fun a => a.geometry) := by
  unfold parse_annotations
  rw [List.map_map, List.map_map]
  induction hsty with
  | nil => rfl
  | cons hab htail ih =>
    simp only [List.map_cons, Function.comp]
    rw [hab, ih]

/-- C1: For every crop request, all three annotation style fields are
ignored: two requests that differ only in the style fields of their
annotation payloads (same geometries, all other parameters equal) produce
identical rendered crop responses.  The stroke fields are dropped by the
parser and the crop renderer depends on the annotations only through their
geometries. -/
theorem C1_crop_ignores_style_fields (in_image : SpatialImage)
    (annotations1 annotations2 : List RawAnnotation)
    (hsty : List.Forall₂ (fun a b => a.geometry = b.geometry) annotations1 annotations2)
    (context_factor : Option ℚ) (background_transparency : ℚ)
    (height width length zoom level : Option ℕ)
    (channels z_slices timepoints : Option (List ℕ))
    (min_intensities max_intensities : Option (List ℚ))
    (filters : Option (List String)) (gammas : Option (List ℚ))
    (bits : ℕ) (colorspace : Colorspace) (extension : OutputExtension)
    (headers : ImageAnnotationRequestHeaders) (config : Settings)
    (colormaps : Option (List String)) (c_reduction : String)
    (z_reduction t_reduction : Option String) :
    _show_crop in_image annotations1 context_factor background_transparency
      height width length zoom level channels z_slices timepoints
      min_intensities max_intensities filters gammas bits colorspace
      extension headers config colormaps c_reduction z_reduction t_reduction =
    _show_crop in_image annotations2 context_factor background_transparency
      height width length zoom level channels z_slices timepoints
      min_intensities max_intensities filters gammas bits colorspace
      extension headers config colormaps c_reduction z_reduction t_reduction := by
  have hg : (cropAnnots annotations1 headers in_image).map (fun a => a.geometry) =
      (cropAnnots annotations2 headers in_image).map (fun a => a.geometry) :=
    parse_annotations_geoms_congr annotations1 annotations2 hsty _ _ _ _ _
  have henv : collectionEnvelope (cropAnnots annotations1 headers in_image) =
      collectionEnvelope (cropAnnots annotations2 headers in_image) := by
    unfold collectionEnvelope
    rw [flatMap_geomCoords, flatMap_geomCoords, hg]
  have hreg : cropRegion annotations1 context_factor headers in_image =
      cropRegion annotations2 context_factor headers in_image := by
    unfold cropRegion get_annotation_region
    rw [henv]
  unfold _show_crop
  rw [hreg]
  cases hr : cropRegion annotations2 context_factor headers in_image with
  | error e => rfl
  | ok region =>
    simp only [_show_window, renderOverlayOf]
    rw [hg]

/-- Witness for C1: two concrete crop requests whose single annotation has
the same geometry but different style fields (red fill and green stroke vs.
no style at all) produce identical responses. -/
theorem C1_crop_ignores_style_fields_witness :
    List.Forall₂ (fun a b => a.geometry = b.geometry) [wRawRed] [wRaw] ∧
    _show_crop wImg [wRawRed] Option.none 100 Option.none Option.none Option.none
      Option.none Option.none Option.none Option.none Option.none Option.none
      Option.none Option.none Option.none 8 Colorspace.AUTO OutputExtension.png
      wHeaders wConfig Option.none "ADD" Option.none Option.none =
    _show_crop wImg [wRaw] Option.none 100 Option.none Option.none Option.none
      Option.none Option.none Option.none Option.none Option.none Option.none
      Option.none Option.none Option.none 8 Colorspace.AUTO OutputExtension.png
      wHeaders wConfig Option.none "ADD" Option.none Option.none :=
  ⟨List.Forall₂.cons rfl List.Forall₂.nil,
    C1_crop_ignores_style_fields wImg [wRawRed] [wRaw]
      (List.Forall₂.cons rfl List.Forall₂.nil) Option.none 100 Option.none
      Option.none Option.none Option.none Option.none Option.none Option.none
      Option.none Option.none Option.none Option.none Option.none 8
      Colorspace.AUTO OutputExtension.png wHeaders wConfig Option.none "ADD"
      Option.none Option.none⟩

/-- The mask response of a mixed-payload request: the first annotation
supplies a red fill color, the second omits it. -/
def wMixedMaskResp : MaskHttpResponse :=
  exceptOkD
    (_show_mask wImg [wRawRed, wRaw] Option.none Option.none Option.none Option.none
      Option.none Option.none OutputExtension.png wHeaders wConfig)
    wMaskFallback

/-- Witness for C3 at a mixed request (annotation 0 supplies a fill color,
annotation 1 omits it — annotation 1 still receives the white default, and
both lose their stroke fields) and at an all-default request (all fills
white, black/white palette). -/
theorem C3_mask_parse_defaults_witness :
    _show_mask wImg [wRawRed, wRaw] Option.none Option.none Option.none Option.none
      Option.none Option.none OutputExtension.png wHeaders wConfig =
      Except.ok wMixedMaskResp ∧
    ([wRawRed, wRaw].get ⟨1, by decide⟩).fill_color = Option.none ∧
    (wMixedMaskResp.mask.annots.get ⟨1, by decide⟩).fill_color =
      Option.some WHITE ∧
    (∀ a ∈ wMixedMaskResp.mask.annots,
      a.stroke_width = Option.none ∧ a.stroke_color = Option.none) ∧
    _show_mask wImg [wRaw] Option.none Option.none Option.none Option.none
      Option.none Option.none OutputExtension.png wHeaders wConfig =
      Except.ok wMaskResp ∧
    (∀ raw ∈ [wRaw], raw.fill_color = Option.none) ∧
    ((∀ a ∈ wMaskResp.mask.annots, a.fill_color = Option.some WHITE) ∧
      ∀ c ∈ maskPalette wMaskResp.mask, c = Color.mk 0 0 0 ∨ c = WHITE) :=
  ⟨rfl, by decide,
    (C3_mask_parse_defaults wImg [wRawRed, wRaw] Option.none Option.none
      Option.none Option.none Option.none Option.none OutputExtension.png
      wHeaders wConfig wMixedMaskResp rfl).2.2.1 1 (by decide) (by decide)
      (by decide),
    (C3_mask_parse_defaults wImg [wRawRed, wRaw] Option.none Option.none
      Option.none Option.none Option.none Option.none OutputExtension.png
      wHeaders wConfig wMixedMaskResp rfl).1,
    rfl, by decide,
    (C3_mask_parse_defaults wImg [wRaw] Option.none Option.none Option.none
      Option.none Option.none Option.none OutputExtension.png wHeaders wConfig
      wMaskResp rfl).2.2.2 (by decide)⟩
